import Mathlib

/-! # 1gh frontend (`src-tauri/frontend/app.js`): keyboard dispatch, theme overlay, render

A shallow embedding of the client script.  The script's global variables
(`currentState`, `themeModalOpen`, `themeSelectedIndex`, `currentThemeId`), the
persisted entry `localStorage["1gh-theme"]`, the custom properties on the
document root and the parts of the page the script writes to are the fields of
one record `Client`; every function of the script is a function on that
record.  Two counters record the outward effects: `sent` is the sequence of
`invoke("action", ...)` requests issued so far and `beeps` the number of
`playBeep()` calls.

Strings are Lean strings, JavaScript numbers that are only ever integers are
`Int` (with `Int.tmod` for the JavaScript `%`) or `Nat`, `null`/`undefined`
is `none`.
-/

namespace OneGH

/-! ## Data model -/

/-- One task slot of a snapshot. -/
structure Todo where
  text : String
  completed : Bool
  deriving DecidableEq, Repr

/-- One archived session of a snapshot. -/
structure HistoryNote where
  todos : List Todo
  time_spent : String
  deriving DecidableEq, Repr

/-- The state object returned by `get_state`, `tick` and `action`; only the
fields the script reads (`progress`, a float used for the progress bar, is left
out together with the two elements it is written to). -/
structure Snapshot where
  input_mode : Option String
  is_running : Bool
  time_left : Nat
  timer_display : String
  todos : List Todo
  selected_todo : Nat
  editing_index : Option Nat
  status_message : Option String
  show_history : Bool
  completed_notes : Option (List HistoryNote)
  history_index : Nat
  history_total : Nat
  modal : Option String
  sound_pending : Bool
  deriving DecidableEq, Repr

/-- A request `invoke("action", { name, payload })`; `payload = none` is `null`. -/
structure Action where
  name : String
  payload : Option String
  deriving DecidableEq, Repr

/-- A theme preset. `colors` is the object literal as a key/value list. -/
structure Theme where
  id : String
  name : String
  swatches : List String
  colors : List (String × String)
  deriving DecidableEq, Repr

/-- The constant `CSS_VARS`. -/
def CSS_VARS : List String :=
  [ "bg", "bright", "normal", "dim", "faint",
    "selection-bg", "bar-bg", "label-text",
    "gradient-start", "gradient-mid", "gradient-end",
    "tasks-border", "history-border" ]

/-- The constant `THEMES`. -/
def THEMES : List Theme :=
  [ { id := "ember", name := "Ember",
      swatches := ["#ffa000", "#c87800", "#784600"],
      colors :=
        [ ("bg", "#0a0500"), ("bright", "#ffa000"), ("normal", "#c87800"),
          ("dim", "#784600"), ("faint", "#462800"), ("selection-bg", "#281600"),
          ("bar-bg", "#1e1000"), ("label-text", "#140a00"),
          ("gradient-start", "#ffb400"), ("gradient-mid", "#c86400"),
          ("gradient-end", "#8c3200"), ("tasks-border", "#c87800"),
          ("history-border", "#c87800") ] },
    { id := "catppuccin", name := "Catppuccin",
      swatches := ["#f38ba8", "#74c7ec", "#cba6f7"],
      colors :=
        [ ("bg", "#11111b"), ("bright", "#f38ba8"), ("normal", "#cdd6f4"),
          ("dim", "#a6adc8"), ("faint", "#45475a"), ("selection-bg", "#313244"),
          ("bar-bg", "#181825"), ("label-text", "#11111b"),
          ("gradient-start", "#f38ba8"), ("gradient-mid", "#89b4fa"),
          ("gradient-end", "#94e2d5"), ("tasks-border", "#74c7ec"),
          ("history-border", "#cba6f7") ] },
    { id := "solarized", name := "Solarized",
      swatches := ["#268bd2", "#2aa198", "#859900"],
      colors :=
        [ ("bg", "#002b36"), ("bright", "#268bd2"), ("normal", "#839496"),
          ("dim", "#586e75"), ("faint", "#073642"), ("selection-bg", "#073642"),
          ("bar-bg", "#001e26"), ("label-text", "#002b36"),
          ("gradient-start", "#268bd2"), ("gradient-mid", "#2aa198"),
          ("gradient-end", "#859900"), ("tasks-border", "#2aa198"),
          ("history-border", "#6c71c4") ] },
    { id := "gruvbox", name := "Gruvbox",
      swatches := ["#fe8019", "#fabd2f", "#b8bb26"],
      colors :=
        [ ("bg", "#1d2021"), ("bright", "#fe8019"), ("normal", "#ebdbb2"),
          ("dim", "#a89984"), ("faint", "#504945"), ("selection-bg", "#3c3836"),
          ("bar-bg", "#282828"), ("label-text", "#1d2021"),
          ("gradient-start", "#fb4934"), ("gradient-mid", "#fe8019"),
          ("gradient-end", "#fabd2f"), ("tasks-border", "#83a598"),
          ("history-border", "#d3869b") ] } ]

/-! ## The page -/

/-- What was last assigned to an element: `el.textContent = s` or
`el.innerHTML = s`. -/
inductive Content where
  | textContent (s : String)
  | innerHTML (s : String)
  deriving DecidableEq, Repr

/-- The four parts of a `#todo-i` row that `renderTodos` writes. -/
structure TodoRowView where
  rowClass : String
  selector : String
  checkbox : String
  checkboxClass : String
  text : Content
  textClass : String
  deriving DecidableEq, Repr

/-- One `div` appended to `#theme-list` by `renderThemeModal`. -/
structure ThemeOptionView where
  className : String
  innerHTML : String
  selected : Bool
  active : Bool
  deriving DecidableEq, Repr

/-- The elements of `#history-section` written by `renderHistory`. -/
structure HistoryView where
  sectionHidden : Bool
  emptyHidden : Bool
  headerHidden : Bool
  footerHidden : Bool
  header : String
  todos : List String
  footer : String
  deriving DecidableEq, Repr

/-- The elements written by `renderModal`. -/
structure ModalView where
  overlayHidden : Bool
  title : String
  body : String
  deriving DecidableEq, Repr

/-- The script's mutable world. -/
structure Client where
  currentState : Option Snapshot
  themeModalOpen : Bool
  themeSelectedIndex : Int
  currentThemeId : String
  /-- Value of `localStorage["1gh-theme"]`, `none` when the key is absent. -/
  storage : Option String
  /-- Custom properties set on `document.documentElement.style`, latest first. -/
  rootStyle : List (String × String)
  /-- Requests issued through `invoke("action", ...)`, oldest first. -/
  sent : List Action
  /-- Number of `playBeep()` calls so far. -/
  beeps : Nat
  timerStatus : String
  todoRows : Nat → TodoRowView
  actionBar : String
  history : HistoryView
  modal : ModalView
  themeList : List ThemeOptionView
  themeOverlayHidden : Bool

/-! ## JavaScript primitives -/

/-- `s.length` of JavaScript: the number of UTF-16 code units. -/
def jsLength (s : String) : Nat :=
  (s.data.map fun c => if c.val.toNat < 65536 then 1 else 2).sum

/-- `s.startsWith(p)`. -/
def jsStartsWith (s p : String) : Bool :=
  p.data.isPrefixOf s.data

/-- `payload || null` for an argument that is a string or `undefined`: the
empty string is falsy. -/
def orNull (payload : Option String) : Option String :=
  match payload with
  | some s => if s = "" then none else some s
  | none => none

/-- `obj[key]` on an object literal given as a key/value list. -/
def getProp (obj : List (String × String)) (key : String) : Option String :=
  obj.lookup key

/-- `root.style.getPropertyValue(name)`. -/
def getPropertyValue (c : Client) (name : String) : Option String :=
  c.rootStyle.lookup name

/-- The text-to-markup escaping done by `div.textContent = str; div.innerHTML`
(browser behaviour, the HTML fragment serialisation of a text node). -/
def escapeHtml (str : String) : String :=
  String.join (str.data.map fun c =>
    if c = '&' then "&amp;"
    else if c = '<' then "&lt;"
    else if c = '>' then "&gt;"
    else if c = Char.ofNat 160 then "&nbsp;"
    else String.singleton c)

/-! ## Action helper -/

/-- The synchronous part of `sendAction(name, payload)`: the request
`invoke("action", { name, payload: payload || null })` is issued.  The
response is a later event (`Event.response`). -/
def sendAction (c : Client) (name : String) (payload : Option String) : Client :=
  { c with sent := c.sent ++ [{ name := name, payload := orNull payload }] }

/-! ## Theme overlay -/

/-- `THEMES.findIndex(t => t.id === themeId)`: `-1` when no preset matches. -/
def findThemeIndex (themeId : String) : Int :=
  match THEMES.findIdx? (fun t => t.id == themeId) with
  | some i => (i : Int)
  | none => -1

/-- `THEMES[i]` for an integer `i`; `none` is `undefined`. -/
def themeAt (i : Int) : Option Theme :=
  if 0 ≤ i then THEMES[i.toNat]? else none

/-- The markup of the swatch dots of one preset (inner loop of
`renderThemeModal`). -/
def swatchesHtml (theme : Theme) : String :=
  theme.swatches.foldl
    (fun acc color =>
      acc ++ "<span class=\"theme-swatch-dot\" style=\"background:" ++ color ++ "\"></span>")
    "<span class=\"theme-swatch\">" ++ "</span>"

/-- The `div` built by `renderThemeModal` for the preset at position `i`. -/
def themeOptionView (c : Client) (i : Nat) (theme : Theme) : ThemeOptionView :=
  let isSelected : Bool := decide ((i : Int) = c.themeSelectedIndex)
  let isActive : Bool := decide (theme.id = c.currentThemeId)
  let selector :=
    "<span class=\"theme-selector\">" ++ (if isSelected then "▸" else " ") ++ "</span>"
  let name := "<span class=\"theme-name\">" ++ escapeHtml theme.name ++ "</span>"
  let active := if isActive then "<span class=\"theme-active\">✓</span>" else ""
  { className := "theme-option" ++ (if isSelected then " selected" else ""),
    innerHTML := selector ++ name ++ active ++ swatchesHtml theme,
    selected := isSelected,
    active := isActive }

/-- The children of `#theme-list` that `renderThemeModal` produces. -/
def themeListView (c : Client) : List ThemeOptionView :=
  THEMES.enum.map fun p => themeOptionView c p.1 p.2

/-- `renderThemeModal()`. -/
def renderThemeModal (c : Client) : Client :=
  { c with themeList := themeListView c }

/-- `openThemeModal()`. -/
def openThemeModal (c : Client) : Client :=
  let c := { c with themeModalOpen := true }
  let c := { c with themeSelectedIndex := findThemeIndex c.currentThemeId }
  let c := if c.themeSelectedIndex < 0 then { c with themeSelectedIndex := 0 } else c
  let c := renderThemeModal c
  { c with themeOverlayHidden := false }

/-- `closeThemeModal()`. -/
def closeThemeModal (c : Client) : Client :=
  let c := { c with themeModalOpen := false }
  { c with themeOverlayHidden := true }

/-- `root.style.setProperty(name, value)`. -/
def setProperty (c : Client) (name value : String) : Client :=
  { c with rootStyle := (name, value) :: c.rootStyle }

/-- One turn of the loop `for (const key of CSS_VARS)` of `applyTheme`: the
property is set when `theme.colors[key]` is truthy. -/
def applyColor (theme : Theme) (c : Client) (key : String) : Client :=
  match getProp theme.colors key with
  | some v => if v = "" then c else setProperty c ("--" ++ key) v
  | none => c

/-- `applyTheme(themeId)`. -/
def applyTheme (c : Client) (themeId : String) : Client :=
  let c := { c with currentThemeId := themeId }
  let c := { c with storage := some themeId }
  match THEMES.find? (fun t => t.id == themeId) with
  | none => c
  | some theme => CSS_VARS.foldl (applyColor theme) c

/-- `handleThemeKey(e)` with `e.key = key`; the second component tells whether
`e.preventDefault()` was called.  At `Enter`, `THEMES[themeSelectedIndex].id`
throws when the index is not a position of the list, and the handler ends
there. -/
def handleThemeKey (c : Client) (key : String) : Client × Bool :=
  match key with
  | "j" | "ArrowDown" =>
    let c := { c with themeSelectedIndex := (c.themeSelectedIndex + 1).tmod THEMES.length }
    (renderThemeModal c, true)
  | "k" | "ArrowUp" =>
    let c := { c with
      themeSelectedIndex := (c.themeSelectedIndex - 1 + THEMES.length).tmod THEMES.length }
    (renderThemeModal c, true)
  | "Enter" =>
    match themeAt c.themeSelectedIndex with
    | some theme => (renderThemeModal (applyTheme c theme.id), true)
    | none => (c, false)
  | "Escape" | "t" => (closeThemeModal c, true)
  | _ => (c, false)

/-! ## Keyboard handler -/

/-- `handleNormalKey(e)`. -/
def handleNormalKey (c : Client) (key : String) : Client × Bool :=
  match key with
  | " " => (sendAction c "toggle_timer" none, true)
  | "r" => (sendAction c "reset_timer" none, true)
  | "j" | "ArrowDown" => (sendAction c "move_down" none, true)
  | "k" | "ArrowUp" => (sendAction c "move_up" none, true)
  | "Enter" => (sendAction c "start_editing" none, true)
  | "x" => (sendAction c "toggle_todo" none, true)
  | "d" => (sendAction c "remove_todo" none, true)
  | "c" => (sendAction c "complete_session" none, true)
  | "h" | "ArrowLeft" => (sendAction c "prev_history" none, true)
  | "l" | "ArrowRight" => (sendAction c "next_history" none, true)
  | "y" => (sendAction c "copy_markdown" none, true)
  | "D" => (sendAction c "clear_notes" none, true)
  | "N" => (sendAction c "new_session" none, true)
  | "?" => (sendAction c "show_help" none, true)
  | "H" => (sendAction c "toggle_history" none, true)
  | "t" => (openThemeModal c, true)
  | _ => (c, false)

/-- `handleEditingKey(e)`. -/
def handleEditingKey (c : Client) (key : String) : Client × Bool :=
  match key with
  | "Enter" | "Escape" => (sendAction c "stop_editing" none, true)
  | "Backspace" => (sendAction c "edit_backspace" none, true)
  | _ =>
    if jsLength key = 1 then (sendAction c "edit_char" (some key), true)
    else (c, false)

/-- `handleModalKey(e)`. -/
def handleModalKey (c : Client) (key : String) : Client × Bool :=
  match key with
  | "y" | "Enter" => (sendAction c "confirm_modal" none, true)
  | "n" | "Escape" => (sendAction c "dismiss_modal" none, true)
  | _ => (c, false)

/-- `mode && mode.startsWith("editing:")` as a condition. -/
def isEditingMode (mode : Option String) : Bool :=
  match mode with
  | some m => m != "" && jsStartsWith m "editing:"
  | none => false

/-- `handleKey(e)` with `e.key = key`. -/
def handleKey (c : Client) (key : String) : Client × Bool :=
  if c.themeModalOpen then handleThemeKey c key
  else
    match c.currentState with
    | none => (c, false)
    | some state =>
      let mode := state.input_mode
      if mode = some "normal" then handleNormalKey c key
      else if isEditingMode mode then handleEditingKey c key
      else if mode = some "modal" then handleModalKey c key
      else (c, false)

/-! ## Render -/

/-- How a call ended: it returned (`done`) or an exception left it (`threw`);
either way the writes made up to that point stay. -/
inductive Run where
  | done (c : Client)
  | threw (c : Client)

/-- The world after the call. -/
def Run.client : Run → Client
  | .done c => c
  | .threw c => c

/-- Whether the call returned. -/
def Run.returned : Run → Bool
  | .done _ => true
  | .threw _ => false

/-- Sequencing: the rest runs only when the first part returned. -/
def Run.andThen (r : Run) (rest : Client → Run) : Run :=
  match r with
  | .done c => rest c
  | .threw c => .threw c

/-- `renderTimer(state)`, the `#timer-status` part. -/
def renderTimer (c : Client) (state : Snapshot) : Client :=
  let statusIcon :=
    if state.is_running then "▶ Running"
    else if state.time_left = 0 then "✓ Done"
    else "⏸ Paused"
  { c with timerStatus := statusIcon ++ "  [Space] Play/Pause  [r] Reset" }

/-- The body of the loop of `renderTodos` for row `i`.  When `state.todos[i]`
is `undefined` the row class and the selector have been written and reading
`todo.completed` throws. -/
def renderTodoRow (c : Client) (state : Snapshot) (i : Nat) : Run :=
  let row := c.todoRows i
  let isSelected : Bool := decide (i = state.selected_todo)
  let isEditing : Bool := decide (state.editing_index = some i)
  let row := { row with rowClass := "todo-row" ++ (if isSelected then " selected" else "") }
  let row := { row with selector := if isSelected then "▸ " else "  " }
  match state.todos[i]? with
  | none => .threw { c with todoRows := Function.update c.todoRows i row }
  | some todo =>
    let row := { row with checkbox := if todo.completed then "[x] " else "[ ] " }
    let row := { row with
      checkboxClass := "todo-checkbox" ++ (if todo.completed then " completed" else "") }
    let row :=
      if isEditing then
        { row with
          text := .innerHTML (escapeHtml todo.text ++ "<span class=\"cursor-char\">▎</span>"),
          textClass := "todo-text editing" }
      else if todo.text = "" then
        { row with text := .textContent "(empty)", textClass := "todo-text empty" }
      else if todo.completed then
        { row with text := .textContent todo.text, textClass := "todo-text completed" }
      else
        { row with text := .textContent todo.text, textClass := "todo-text" }
    .done { c with todoRows := Function.update c.todoRows i row }

/-- The loop of `renderTodos` over the remaining row indices. -/
def renderTodosFrom (state : Snapshot) : List Nat → Client → Run
  | [], c => .done c
  | i :: rest, c => (renderTodoRow c state i).andThen (renderTodosFrom state rest)

/-- `renderTodos(state)`: `for (let i = 0; i < 4; i++)`. -/
def renderTodos (c : Client) (state : Snapshot) : Run :=
  renderTodosFrom state [0, 1, 2, 3] c

/-- `renderActionBar(state)`. -/
def renderActionBar (c : Client) (state : Snapshot) : Client :=
  match state.status_message with
  | some msg =>
    if msg = "" then
      { c with actionBar :=
          "<span class=\"key-hint\">[x]</span> Check  " ++
          "<span class=\"key-hint\">[c]</span> Complete  " ++
          "<span class=\"key-hint\">[N]</span> New  " ++
          "<span class=\"key-hint\">[t]</span> Themes  " ++
          "<span class=\"key-hint\">[?]</span> Help" }
    else
      { c with actionBar := "<span class=\"key-hint\">" ++ escapeHtml msg ++ "</span>" }
  | none =>
    { c with actionBar :=
        "<span class=\"key-hint\">[x]</span> Check  " ++
        "<span class=\"key-hint\">[c]</span> Complete  " ++
        "<span class=\"key-hint\">[N]</span> New  " ++
        "<span class=\"key-hint\">[t]</span> Themes  " ++
        "<span class=\"key-hint\">[?]</span> Help" }

/-- The `div.innerHTML` built by `renderHistory` for one todo of a note. -/
def historyTodoHtml (todo : Todo) : String :=
  let check := if todo.completed then "[x]" else "[ ]"
  let checkClass := if todo.completed then "todo-checkbox completed" else "todo-checkbox"
  let textClass := if todo.completed then "todo-text completed" else "todo-text"
  "<span class=\"" ++ checkClass ++ "\">  " ++ check ++ " </span>" ++
  "<span class=\"" ++ textClass ++ "\">" ++ escapeHtml todo.text ++ "</span>"

/-- The `header.innerHTML` built by `renderHistory`. -/
def historyHeaderHtml (idx total : Nat) : String :=
  "<span style=\"color:var(--dim)\">[←/h] </span>" ++
  "<span style=\"color:var(--bright);font-weight:bold\">Session " ++
  toString (idx + 1) ++ " of " ++ toString total ++ "</span>" ++
  "<span style=\"color:var(--dim)\"> [→/l]</span>"

/-- `renderHistory(state)`.  When `state.completed_notes[idx]` is `undefined`
the header has been written and the list emptied, and `note.todos` throws. -/
def renderHistory (c : Client) (state : Snapshot) : Run :=
  if !state.show_history then
    .done { c with history := { c.history with sectionHidden := true } }
  else
    let h := { c.history with sectionHidden := false }
    match state.completed_notes with
    | none =>
      .done { c with history :=
        { h with emptyHidden := false, headerHidden := true, todos := [], footerHidden := true } }
    | some notes =>
      if notes.length = 0 then
        .done { c with history :=
          { h with emptyHidden := false, headerHidden := true, todos := [], footerHidden := true } }
      else
        let h := { h with emptyHidden := true, headerHidden := false, footerHidden := false }
        let idx := state.history_index
        let total := if state.history_total = 0 then notes.length else state.history_total
        let h := { h with header := historyHeaderHtml idx total }
        let h := { h with todos := [] }
        match notes[idx]? with
        | none => .threw { c with history := h }
        | some note =>
          let h := { h with
            todos := (note.todos.filter fun (todo : Todo) => todo.text != "").map historyTodoHtml }
          let h := { h with footer :=
            "<span style=\"color:var(--dim)\">Time: " ++ note.time_spent ++ "</span>  " ++
            "<span class=\"key-hint\">[y]</span> " ++
            "<span style=\"color:var(--normal)\">Copy  </span>" ++
            "<span class=\"key-hint\">[D]</span> " ++
            "<span style=\"color:var(--normal)\">Clear</span>" }
          .done { c with history := h }

/-- `renderHelpContent()`. -/
def renderHelpContent : String :=
  let shortcuts : List (String × String × String × String) :=
    [ ("Space", "Play/Pause timer", "j/↓", "Move down"),
      ("r", "Reset timer", "k/↑", "Move up"),
      ("Enter", "Edit task", "x", "Check off task"),
      ("d", "Clear task", "c", "Complete session"),
      ("h/←", "Prev history", "l/→", "Next history"),
      ("y", "Copy markdown", "D", "Clear history"),
      ("N", "New session", "t", "Themes"),
      ("H", "Toggle history", "?", "Show help") ]
  let html := shortcuts.foldl
    (fun html r =>
      html ++ "<div class=\"help-row\">" ++
        "<span class=\"help-key\">" ++ escapeHtml r.1 ++ "</span>" ++
        "<span class=\"help-desc\">" ++ escapeHtml r.2.1 ++ "</span>" ++
        "<span class=\"help-key\">" ++ escapeHtml r.2.2.1 ++ "</span>" ++
        "<span class=\"help-desc\">" ++ escapeHtml r.2.2.2 ++ "</span>" ++
        "</div>")
    "<div class=\"help-table\">"
  let html := html ++ "</div>"
  html ++ "<div class=\"help-close\">[Esc] Close</div>"

/-- The shared yes/no body of the three confirmation modals. -/
def confirmBody (sentence : String) : String :=
  sentence ++ "\n\n<span class=\"key-hint\">[y]</span> Yes  <span class=\"key-hint\">[n]</span> No"

/-- `renderModal(state)`. -/
def renderModal (c : Client) (state : Snapshot) : Client :=
  match state.modal with
  | none => { c with modal := { c.modal with overlayHidden := true } }
  | some kind =>
    if kind = "" then { c with modal := { c.modal with overlayHidden := true } }
    else
      let m := { c.modal with overlayHidden := false }
      if kind = "help" then
        { c with modal := { m with title := "Shortcuts", body := renderHelpContent } }
      else if kind = "complete_session" then
        { c with modal := { m with
            title := "Complete Session",
            body := confirmBody "Complete this session and save to history?" } }
      else if kind = "clear_notes" then
        { c with modal := { m with
            title := "Clear History",
            body := confirmBody "Clear all completed sessions?" } }
      else if kind = "new_session" then
        { c with modal := { m with
            title := "New Session",
            body := confirmBody "Start fresh? This clears all tasks and history." } }
      else { c with modal := m }

/-- `playBeep()`: the call is counted; a failure of the audio output is caught
inside it. -/
def playBeep (c : Client) : Client :=
  { c with beeps := c.beeps + 1 }

/-- `render(state)`. -/
def render (c : Client) (state : Option Snapshot) : Run :=
  match state with
  | none => .done c
  | some state =>
    let c := { c with currentState := some state }
    let c := renderTimer c state
    (renderTodos c state).andThen fun c =>
    let c := renderActionBar c state
    (renderHistory c state).andThen fun c =>
    let c := renderModal c state
    if state.sound_pending then
      let c := playBeep c
      .done (sendAction c "clear_sound" none)
    else .done c

/-! ## Events and startup -/

/-- What the script reacts to after it is loaded: a `keydown` event, or a
response of the backend (to `get_state`, `tick` or `action`) arriving; a
failed request changes nothing and is no event. -/
inductive Event where
  | key (k : String)
  | response (s : Option Snapshot)

/-- One event handled.  An exception leaving `render` is caught by the
`try`/`catch` of the caller and logged. -/
def step (c : Client) : Event → Client
  | .key k => (handleKey c k).1
  | .response s => (render c s).client

/-- A sequence of events handled in order. -/
def run (c : Client) (events : List Event) : Client :=
  events.foldl step c

/-- The top level of the script run on a freshly loaded page `page` (whose
fields give the initial content of the document) with `persisted` the value of
`localStorage.getItem("1gh-theme")`:
`currentThemeId = localStorage.getItem("1gh-theme") || "ember"`. -/
def load (page : Client) (persisted : Option String) : Client :=
  { page with
    currentState := none,
    themeModalOpen := false,
    themeSelectedIndex := 0,
    currentThemeId :=
      match persisted with
      | some v => if v = "" then "ember" else v
      | none => "ember",
    storage := persisted,
    sent := [],
    beeps := 0 }

/-- The `DOMContentLoaded` listener: `applyTheme(currentThemeId)` (the
`get_state` request it also makes is answered by a later `Event.response`). -/
def domContentLoaded (c : Client) : Client :=
  applyTheme c c.currentThemeId

/-- The state from which events are handled. -/
def startup (page : Client) (persisted : Option String) : Client :=
  domContentLoaded (load page persisted)

/-! ## Sample inputs -/

/-- A page as loaded: nothing rendered yet, overlays hidden. -/
def samplePage : Client :=
  { currentState := none, themeModalOpen := false, themeSelectedIndex := 0,
    currentThemeId := "", storage := none, rootStyle := [], sent := [], beeps := 0,
    timerStatus := "",
    todoRows := fun _ =>
      { rowClass := "todo-row", selector := "", checkbox := "", checkboxClass := "todo-checkbox",
        text := .textContent "", textClass := "todo-text" },
    actionBar := "",
    history :=
      { sectionHidden := true, emptyHidden := true, headerHidden := true, footerHidden := true,
        header := "", todos := [], footer := "" },
    modal := { overlayHidden := true, title := "", body := "" },
    themeList := [], themeOverlayHidden := true }

/-- A snapshot of a fresh session: four empty tasks, normal mode. -/
def sampleSnapshot : Snapshot :=
  { input_mode := some "normal", is_running := false, time_left := 1500,
    timer_display := "25:00",
    todos := [⟨"", false⟩, ⟨"", false⟩, ⟨"", false⟩, ⟨"", false⟩],
    selected_todo := 0, editing_index := none, status_message := none,
    show_history := false, completed_notes := some [], history_index := 0,
    history_total := 0, modal := none, sound_pending := false }

/-- The sample page with a cached snapshot. -/
def sampleClient (state : Snapshot) : Client :=
  { samplePage with currentState := some state }

/-- The action names of the backend interface. -/
def actionNames : List String :=
  [ "toggle_timer", "reset_timer", "move_down", "move_up", "start_editing",
    "toggle_todo", "remove_todo", "complete_session", "prev_history", "next_history",
    "copy_markdown", "clear_notes", "new_session", "show_help", "toggle_history",
    "stop_editing", "edit_backspace", "edit_char", "confirm_modal", "dismiss_modal",
    "clear_sound" ]

/-- The normal-mode key table: key, action name. -/
def normalKeyTable : List (String × String) :=
  [ (" ", "toggle_timer"), ("r", "reset_timer"),
    ("j", "move_down"), ("ArrowDown", "move_down"),
    ("k", "move_up"), ("ArrowUp", "move_up"),
    ("Enter", "start_editing"), ("x", "toggle_todo"), ("d", "remove_todo"),
    ("c", "complete_session"),
    ("h", "prev_history"), ("ArrowLeft", "prev_history"),
    ("l", "next_history"), ("ArrowRight", "next_history"),
    ("y", "copy_markdown"), ("D", "clear_notes"), ("N", "new_session"),
    ("?", "show_help"), ("H", "toggle_history") ]

/-- The theme overlay just opened (key `t` in normal mode) while the active
preset is the one at list position 2. -/
def overlayAtSolarized : Client :=
  (handleKey { sampleClient sampleSnapshot with currentThemeId := "solarized" } "t").1

/-- What `render` and its parts leave alone: the requests sent, the tone
count and the active theme id. -/
def SameEffects (a b : Client) : Prop :=
  b.sent = a.sent ∧ b.beeps = a.beeps ∧ b.currentThemeId = a.currentThemeId

/-- The shape of a snapshot on which no part of `render` throws: at least the
four todos the rows show, and, when the history panel is shown with a
non-empty list of notes, `history_index` a position of that list. -/
def renderable (s : Snapshot) : Bool :=
  decide (4 ≤ s.todos.length) &&
  (!s.show_history ||
    match s.completed_notes with
    | none => true
    | some notes => notes.isEmpty || decide (s.history_index < notes.length))

/-- The snapshot that announces the end of the timer. -/
def ringingSnapshot : Snapshot :=
  { sampleSnapshot with time_left := 0, timer_display := "0:00", sound_pending := true }

/-! ## Frame lemmas of the theme overlay -/

theorem applyColor_frame (theme : Theme) (c : Client) (key : String) :
    (applyColor theme c key).sent = c.sent ∧
    (applyColor theme c key).beeps = c.beeps ∧
    (applyColor theme c key).currentState = c.currentState ∧
    (applyColor theme c key).themeModalOpen = c.themeModalOpen ∧
    (applyColor theme c key).themeSelectedIndex = c.themeSelectedIndex ∧
    (applyColor theme c key).currentThemeId = c.currentThemeId ∧
    (applyColor theme c key).storage = c.storage := by
  unfold applyColor
  split
  · split <;> simp [setProperty]
  · simp

theorem foldl_applyColor_frame (theme : Theme) (keys : List String) (c : Client) :
    (keys.foldl (applyColor theme) c).sent = c.sent ∧
    (keys.foldl (applyColor theme) c).beeps = c.beeps ∧
    (keys.foldl (applyColor theme) c).currentState = c.currentState ∧
    (keys.foldl (applyColor theme) c).themeModalOpen = c.themeModalOpen ∧
    (keys.foldl (applyColor theme) c).themeSelectedIndex = c.themeSelectedIndex ∧
    (keys.foldl (applyColor theme) c).currentThemeId = c.currentThemeId ∧
    (keys.foldl (applyColor theme) c).storage = c.storage := by
  induction keys generalizing c with
  | nil => simp
  | cons k ks ih =>
    obtain ⟨h1, h2, h3, h4, h5, h6, h7⟩ := applyColor_frame theme c k
    obtain ⟨i1, i2, i3, i4, i5, i6, i7⟩ := ih (applyColor theme c k)
    simp only [List.foldl_cons]
    exact ⟨i1.trans h1, i2.trans h2, i3.trans h3, i4.trans h4, i5.trans h5, i6.trans h6,
      i7.trans h7⟩

theorem applyTheme_frame (c : Client) (themeId : String) :
    (applyTheme c themeId).sent = c.sent ∧
    (applyTheme c themeId).beeps = c.beeps ∧
    (applyTheme c themeId).currentState = c.currentState ∧
    (applyTheme c themeId).themeModalOpen = c.themeModalOpen ∧
    (applyTheme c themeId).themeSelectedIndex = c.themeSelectedIndex ∧
    (applyTheme c themeId).currentThemeId = themeId ∧
    (applyTheme c themeId).storage = some themeId := by
  unfold applyTheme
  split
  · simp
  · rename_i theme _
    simpa using foldl_applyColor_frame theme CSS_VARS
      { c with currentThemeId := themeId, storage := some themeId }

theorem handleThemeKey_sent (c : Client) (key : String) :
    (handleThemeKey c key).1.sent = c.sent := by
  unfold handleThemeKey
  split
  · simp [renderThemeModal]
  · simp [renderThemeModal]
  · simp [renderThemeModal]
  · simp [renderThemeModal]
  · split
    · simp [renderThemeModal, (applyTheme_frame c _).1]
    · rfl
  · simp [closeThemeModal]
  · simp [closeThemeModal]
  · rfl

theorem openThemeModal_sent (c : Client) : (openThemeModal c).sent = c.sent := by
  unfold openThemeModal
  simp only [renderThemeModal]
  split <;> rfl

/-! ## What each key handler issues -/

theorem sendAction_sent (c : Client) (name : String) (payload : Option String) :
    (sendAction c name payload).sent = c.sent ++ [⟨name, orNull payload⟩] := rfl

theorem handleNormalKey_issued (c : Client) (key : String) :
    (handleNormalKey c key).1.sent = c.sent ∨
    ∃ name, name ∈ actionNames ∧ (handleNormalKey c key).1.sent = c.sent ++ [⟨name, none⟩] := by
  unfold handleNormalKey
  split
  all_goals first
    | exact Or.inr ⟨_, by decide, rfl⟩
    | exact Or.inl (openThemeModal_sent c)
    | exact Or.inl rfl

theorem handleEditingKey_issued (c : Client) (key : String) :
    (handleEditingKey c key).1.sent = c.sent ∨
    ∃ a : Action, a.name ∈ actionNames ∧ (handleEditingKey c key).1.sent = c.sent ++ [a] := by
  unfold handleEditingKey
  split
  · exact Or.inr ⟨_, by decide, rfl⟩
  · exact Or.inr ⟨_, by decide, rfl⟩
  · exact Or.inr ⟨_, by decide, rfl⟩
  · split
    · exact Or.inr ⟨⟨"edit_char", orNull (some key)⟩, by show "edit_char" ∈ actionNames; decide, rfl⟩
    · exact Or.inl rfl

theorem handleModalKey_issued (c : Client) (key : String) :
    (handleModalKey c key).1.sent = c.sent ∨
    ∃ name, name ∈ actionNames ∧ (handleModalKey c key).1.sent = c.sent ++ [⟨name, none⟩] := by
  unfold handleModalKey
  split
  all_goals first
    | exact Or.inr ⟨_, by decide, rfl⟩
    | exact Or.inl rfl

/-- With the overlay closed and a cached snapshot, `handleKey` is the handler
of the snapshot's mode. -/
theorem handleKey_closed (c : Client) (state : Snapshot) (key : String)
    (hclosed : c.themeModalOpen = false) (hstate : c.currentState = some state) :
    handleKey c key =
      if state.input_mode = some "normal" then handleNormalKey c key
      else if isEditingMode state.input_mode then handleEditingKey c key
      else if state.input_mode = some "modal" then handleModalKey c key
      else (c, false) := by
  simp [handleKey, hclosed, hstate]

theorem handleKey_open (c : Client) (key : String) (hopen : c.themeModalOpen = true) :
    handleKey c key = handleThemeKey c key := by
  simp [handleKey, hopen]

theorem handleKey_issued (c : Client) (key : String) :
    (handleKey c key).1.sent = c.sent ∨
    ∃ a : Action, a.name ∈ actionNames ∧ (handleKey c key).1.sent = c.sent ++ [a] := by
  unfold handleKey
  split
  · exact Or.inl (handleThemeKey_sent c key)
  · split
    · exact Or.inl rfl
    · dsimp only
      split
      · rcases handleNormalKey_issued c key with h | ⟨n, hn, h⟩
        · exact Or.inl h
        · exact Or.inr ⟨⟨n, none⟩, hn, h⟩
      · split
        · exact handleEditingKey_issued c key
        · split
          · rcases handleModalKey_issued c key with h | ⟨n, hn, h⟩
            · exact Or.inl h
            · exact Or.inr ⟨⟨n, none⟩, hn, h⟩
          · exact Or.inl rfl

/-! ## C1, C3 -/

/-- C1. Overlay precedence: whatever snapshot is cached (or none) and whatever
its input mode, while the theme overlay is open `handleKey` hands the key to
`handleThemeKey` and issues no backend action. -/
theorem overlay_open_issues_no_action (c : Client) (key : String)
    (hopen : c.themeModalOpen = true) :
    handleKey c key = handleThemeKey c key ∧ (handleKey c key).1.sent = c.sent := by
  have h := handleKey_open c key hopen
  exact ⟨h, by rw [h]; exact handleThemeKey_sent c key⟩

/-- C3. One call of `handleKey` issues at most one backend action, and the name
of an issued action is one of the 21 names of the backend interface. -/
theorem handleKey_at_most_one_action (c : Client) (key : String) :
    ∃ issued : List Action,
      (handleKey c key).1.sent = c.sent ++ issued ∧
      issued.length ≤ 1 ∧
      ∀ a ∈ issued, a.name ∈ actionNames := by
  rcases handleKey_issued c key with h | ⟨a, ha, h⟩
  · exact ⟨[], by simpa using h, by simp, by simp⟩
  · exact ⟨[a], h, by simp, by simpa using ha⟩

/-- C1 at a concrete input: overlay open over a snapshot in editing mode, key
`a`. Nothing is sent. -/
theorem overlay_open_issues_no_action_witness :
    handleKey
        { sampleClient { sampleSnapshot with input_mode := some "editing:1" } with
          themeModalOpen := true } "a" =
      handleThemeKey
        { sampleClient { sampleSnapshot with input_mode := some "editing:1" } with
          themeModalOpen := true } "a" ∧
    (handleKey
        { sampleClient { sampleSnapshot with input_mode := some "editing:1" } with
          themeModalOpen := true } "a").1.sent = [] :=
  overlay_open_issues_no_action
    { sampleClient { sampleSnapshot with input_mode := some "editing:1" } with
      themeModalOpen := true } "a" rfl

/-- C3 at a concrete input: normal mode, key `x` issues exactly `toggle_todo`. -/
theorem handleKey_at_most_one_action_witness :
    (∃ issued : List Action,
      (handleKey (sampleClient sampleSnapshot) "x").1.sent =
        (sampleClient sampleSnapshot).sent ++ issued ∧
      issued.length ≤ 1 ∧ ∀ a ∈ issued, a.name ∈ actionNames) ∧
    (handleKey (sampleClient sampleSnapshot) "x").1.sent = [⟨"toggle_todo", none⟩] :=
  ⟨handleKey_at_most_one_action (sampleClient sampleSnapshot) "x", by decide⟩

/-! ## C5: normal mode -/

theorem handleNormalKey_table (c : Client) :
    ∀ p ∈ normalKeyTable, handleNormalKey c p.1 = (sendAction c p.2 none, true) := by
  simp [normalKeyTable, handleNormalKey]

theorem handleNormalKey_other (c : Client) (key : String) (ht : key ≠ "t")
    (hk : ∀ p ∈ normalKeyTable, p.1 ≠ key) : handleNormalKey c key = (c, false) := by
  simp only [normalKeyTable, List.mem_cons, List.mem_singleton, List.not_mem_nil, or_false,
    forall_eq_or_imp, forall_eq] at hk
  obtain ⟨h1, h2, h3, h4, h5, h6, h7, h8, h9, h10, h11, h12, h13, h14, h15, h16, h17, h18,
    h19⟩ := hk
  unfold handleNormalKey
  split
  all_goals first
    | rfl
    | (exfalso; simp_all)

/-- C5. Normal-mode table: with the overlay closed and `input_mode` equal to
`"normal"`, every key of the table issues exactly its action with a `null`
payload and is consumed; `j`/`ArrowDown`, `k`/`ArrowUp`, `h`/`ArrowLeft` and
`l`/`ArrowRight` give identical results; `t` issues nothing and opens the theme
overlay; every other key issues nothing and is left unconsumed. -/
theorem normal_mode_table (c : Client) (state : Snapshot)
    (hclosed : c.themeModalOpen = false) (hstate : c.currentState = some state)
    (hmode : state.input_mode = some "normal") :
    (∀ p ∈ normalKeyTable,
      handleKey c p.1 = (sendAction c p.2 none, true) ∧
      (handleKey c p.1).1.sent = c.sent ++ [⟨p.2, none⟩]) ∧
    (handleKey c "j" = handleKey c "ArrowDown" ∧ handleKey c "k" = handleKey c "ArrowUp" ∧
      handleKey c "h" = handleKey c "ArrowLeft" ∧ handleKey c "l" = handleKey c "ArrowRight") ∧
    (handleKey c "t" = (openThemeModal c, true) ∧
      (handleKey c "t").1.sent = c.sent ∧ (handleKey c "t").1.themeModalOpen = true) ∧
    (∀ key, key ≠ "t" → (∀ p ∈ normalKeyTable, p.1 ≠ key) → handleKey c key = (c, false)) := by
  have hk : ∀ key, handleKey c key = handleNormalKey c key := by
    intro key
    rw [handleKey_closed c state key hclosed hstate, if_pos hmode]
  refine ⟨?_, ?_, ?_, ?_⟩
  · intro p hp
    rw [hk, handleNormalKey_table c p hp]
    exact ⟨rfl, rfl⟩
  · simp only [hk]
    exact ⟨rfl, rfl, rfl, rfl⟩
  · rw [hk]
    refine ⟨rfl, openThemeModal_sent c, ?_⟩
    show (openThemeModal c).themeModalOpen = true
    unfold openThemeModal
    simp only [renderThemeModal]
    split <;> rfl
  · intro key ht hkey
    rw [hk]
    exact handleNormalKey_other c key ht hkey

/-- C5 at a concrete input: the fresh session in normal mode. -/
theorem normal_mode_table_witness :
    (handleKey (sampleClient sampleSnapshot) "x").1.sent = [⟨"toggle_todo", none⟩] ∧
    (handleKey (sampleClient sampleSnapshot) "ArrowDown").1.sent = [⟨"move_down", none⟩] ∧
    (handleKey (sampleClient sampleSnapshot) "t").1.sent = [] ∧
    (handleKey (sampleClient sampleSnapshot) "t").1.themeModalOpen = true ∧
    (handleKey (sampleClient sampleSnapshot) "q").1.sent = [] ∧
    (handleKey (sampleClient sampleSnapshot) "q").2 = false := by
  have h := normal_mode_table (sampleClient sampleSnapshot) sampleSnapshot rfl rfl rfl
  obtain ⟨htab, -, ⟨-, ht1, ht2⟩, hother⟩ := h
  have hq := hother "q" (by decide) (by decide)
  refine ⟨(htab ("x", "toggle_todo") (by decide)).2, (htab ("ArrowDown", "move_down") (by decide)).2,
    ht1, ht2, ?_, ?_⟩
  · rw [hq]; rfl
  · rw [hq]

/-! ## C4: editing mode -/

theorem editing_mode_of_startsWith (m : String) (hpre : jsStartsWith m "editing:" = true) :
    some m ≠ some "normal" ∧ isEditingMode (some m) = true := by
  have h1 : m ≠ "normal" := by
    rintro rfl
    exact absurd hpre (by decide)
  have h2 : m ≠ "" := by
    rintro rfl
    exact absurd hpre (by decide)
  refine ⟨by simpa using h1, ?_⟩
  simp [isEditingMode, hpre, h2]

theorem jsLength_one_ne_empty (key : String) (h : jsLength key = 1) : key ≠ "" := by
  rintro rfl
  exact absurd h (by decide)

theorem handleEditingKey_char (c : Client) (key : String) (h : jsLength key = 1) :
    handleEditingKey c key = (sendAction c "edit_char" (some key), true) := by
  have h1 : key ≠ "Enter" := by rintro rfl; exact absurd h (by decide)
  have h2 : key ≠ "Escape" := by rintro rfl; exact absurd h (by decide)
  have h3 : key ≠ "Backspace" := by rintro rfl; exact absurd h (by decide)
  unfold handleEditingKey
  split
  · exact absurd rfl h1
  · exact absurd rfl h2
  · exact absurd rfl h3
  · simp [h]

theorem handleEditingKey_other (c : Client) (key : String) (h1 : key ≠ "Enter")
    (h2 : key ≠ "Escape") (h3 : key ≠ "Backspace") (h : jsLength key ≠ 1) :
    handleEditingKey c key = (c, false) := by
  unfold handleEditingKey
  split
  · exact absurd rfl h1
  · exact absurd rfl h2
  · exact absurd rfl h3
  · simp [h]

/-- C4. Editing-mode table: with the overlay closed and `input_mode` starting
with `"editing:"`, the key is handled by `handleEditingKey`; `Enter` and
`Escape` issue `stop_editing` with no payload, `Backspace` issues
`edit_backspace` with no payload, every other key of length 1 issues
`edit_char` with the key itself as payload, and these are all consumed; every
remaining key issues nothing and is not consumed. -/
theorem editing_mode_table (c : Client) (state : Snapshot) (m key : String)
    (hclosed : c.themeModalOpen = false) (hstate : c.currentState = some state)
    (hmode : state.input_mode = some m) (hpre : jsStartsWith m "editing:" = true) :
    handleKey c key = handleEditingKey c key ∧
    (key = "Enter" ∨ key = "Escape" →
      handleKey c key = (sendAction c "stop_editing" none, true) ∧
      (handleKey c key).1.sent = c.sent ++ [⟨"stop_editing", none⟩]) ∧
    (key = "Backspace" →
      handleKey c key = (sendAction c "edit_backspace" none, true) ∧
      (handleKey c key).1.sent = c.sent ++ [⟨"edit_backspace", none⟩]) ∧
    (jsLength key = 1 →
      handleKey c key = (sendAction c "edit_char" (some key), true) ∧
      (handleKey c key).1.sent = c.sent ++ [⟨"edit_char", some key⟩]) ∧
    (key ≠ "Enter" → key ≠ "Escape" → key ≠ "Backspace" → jsLength key ≠ 1 →
      handleKey c key = (c, false)) := by
  obtain ⟨hn, he⟩ := editing_mode_of_startsWith m hpre
  have hk : handleKey c key = handleEditingKey c key := by
    rw [handleKey_closed c state key hclosed hstate, hmode, if_neg hn, if_pos he]
  refine ⟨hk, ?_, ?_, ?_, ?_⟩
  · rintro (rfl | rfl) <;> rw [hk] <;> exact ⟨rfl, rfl⟩
  · rintro rfl
    rw [hk]
    exact ⟨rfl, rfl⟩
  · intro h
    rw [hk, handleEditingKey_char c key h]
    refine ⟨rfl, ?_⟩
    simp [sendAction, orNull, jsLength_one_ne_empty key h]
  · intro h1 h2 h3 h
    rw [hk]
    exact handleEditingKey_other c key h1 h2 h3 h

/-- C4 at a concrete input: editing slot 1, keys `a`, `Backspace`, `Escape`
and the modifier-only key `Shift`. -/
theorem editing_mode_table_witness :
    (handleKey (sampleClient { sampleSnapshot with input_mode := some "editing:1" }) "a").1.sent
      = [⟨"edit_char", some "a"⟩] ∧
    (handleKey (sampleClient { sampleSnapshot with input_mode := some "editing:1" })
      "Backspace").1.sent = [⟨"edit_backspace", none⟩] ∧
    (handleKey (sampleClient { sampleSnapshot with input_mode := some "editing:1" })
      "Escape").1.sent = [⟨"stop_editing", none⟩] ∧
    (handleKey (sampleClient { sampleSnapshot with input_mode := some "editing:1" })
      "Shift").2 = false :=
  ⟨((editing_mode_table
      (sampleClient { sampleSnapshot with input_mode := some "editing:1" })
      { sampleSnapshot with input_mode := some "editing:1" } "editing:1" "a"
      rfl rfl rfl (by decide)).2.2.2.1 (by decide)).2,
   ((editing_mode_table
      (sampleClient { sampleSnapshot with input_mode := some "editing:1" })
      { sampleSnapshot with input_mode := some "editing:1" } "editing:1" "Backspace"
      rfl rfl rfl (by decide)).2.2.1 rfl).2,
   ((editing_mode_table
      (sampleClient { sampleSnapshot with input_mode := some "editing:1" })
      { sampleSnapshot with input_mode := some "editing:1" } "editing:1" "Escape"
      rfl rfl rfl (by decide)).2.1 (Or.inr rfl)).2,
   by
    rw [(editing_mode_table
      (sampleClient { sampleSnapshot with input_mode := some "editing:1" })
      { sampleSnapshot with input_mode := some "editing:1" } "editing:1" "Shift"
      rfl rfl rfl (by decide)).2.2.2.2 (by decide) (by decide) (by decide) (by decide)]⟩

/-! ## C6: modal mode -/

theorem handleModalKey_cases (c : Client) (key : String) :
    ((key = "y" ∨ key = "Enter") ∧ handleModalKey c key = (sendAction c "confirm_modal" none, true)) ∨
    ((key = "n" ∨ key = "Escape") ∧ handleModalKey c key = (sendAction c "dismiss_modal" none, true)) ∨
    ((key ≠ "y" ∧ key ≠ "Enter" ∧ key ≠ "n" ∧ key ≠ "Escape") ∧ handleModalKey c key = (c, false)) := by
  unfold handleModalKey
  split
  · exact Or.inl ⟨Or.inl rfl, rfl⟩
  · exact Or.inl ⟨Or.inr rfl, rfl⟩
  · exact Or.inr (Or.inl ⟨Or.inl rfl, rfl⟩)
  · exact Or.inr (Or.inl ⟨Or.inr rfl, rfl⟩)
  · rename_i h1 h2 h3 h4
    exact Or.inr (Or.inr ⟨⟨h1, h2, h3, h4⟩, rfl⟩)

theorem append_singleton_ne_self {α : Type} (l : List α) (a : α) : l ++ [a] ≠ l := by
  intro h
  have := congrArg List.length h
  simp at this

/-- C6. Modal-mode table: with the overlay closed and `input_mode` equal to
`"modal"`, `confirm_modal` is issued exactly for the keys `y` and `Enter`,
`dismiss_modal` exactly for `n` and `Escape` (all four consumed), any other key
issues nothing and is not consumed, and what is issued and whether the key is
consumed do not depend on the modal kind of the snapshot. -/
theorem modal_mode_table (c : Client) (state : Snapshot) (key : String)
    (hclosed : c.themeModalOpen = false) (hstate : c.currentState = some state)
    (hmode : state.input_mode = some "modal") :
    ((handleKey c key).1.sent = c.sent ++ [⟨"confirm_modal", none⟩] ↔
      key = "y" ∨ key = "Enter") ∧
    ((handleKey c key).1.sent = c.sent ++ [⟨"dismiss_modal", none⟩] ↔
      key = "n" ∨ key = "Escape") ∧
    (key = "y" ∨ key = "Enter" ∨ key = "n" ∨ key = "Escape" → (handleKey c key).2 = true) ∧
    (key ≠ "y" → key ≠ "Enter" → key ≠ "n" → key ≠ "Escape" → handleKey c key = (c, false)) ∧
    (∀ kind : Option String,
      (handleKey { c with currentState := some { state with modal := kind } } key).1.sent =
        (handleKey c key).1.sent ∧
      (handleKey { c with currentState := some { state with modal := kind } } key).2 =
        (handleKey c key).2) := by
  have hm : ∀ (c : Client) (state : Snapshot), c.themeModalOpen = false →
      c.currentState = some state → state.input_mode = some "modal" →
      handleKey c key = handleModalKey c key := by
    intro c state hclosed hstate hmode
    rw [handleKey_closed c state key hclosed hstate, hmode, if_neg (by decide),
      if_neg (by decide), if_pos rfl]
  have hk := hm c state hclosed hstate hmode
  have hk2 : ∀ kind : Option String,
      handleKey { c with currentState := some { state with modal := kind } } key =
        handleModalKey { c with currentState := some { state with modal := kind } } key :=
    fun kind => hm _ { state with modal := kind } hclosed rfl hmode
  have hne : c.sent ++ [(⟨"dismiss_modal", none⟩ : Action)] ≠
      c.sent ++ [⟨"confirm_modal", none⟩] := by
    simp
  refine ⟨?_, ?_, ?_, ?_, ?_⟩
  · rw [hk]
    rcases handleModalKey_cases c key with ⟨h, e⟩ | ⟨h, e⟩ | ⟨⟨h1, h2, h3, h4⟩, e⟩
    · rw [e]; exact ⟨fun _ => h, fun _ => rfl⟩
    · rw [e]
      refine ⟨fun h' => absurd h' hne, ?_⟩
      rcases h with rfl | rfl <;> rintro (h' | h') <;> exact absurd h' (by decide)
    · rw [e]
      exact ⟨fun h' => absurd h'.symm (append_singleton_ne_self _ _),
        fun h' => h'.elim (fun h' => absurd h' h1) (fun h' => absurd h' h2)⟩
  · rw [hk]
    rcases handleModalKey_cases c key with ⟨h, e⟩ | ⟨h, e⟩ | ⟨⟨h1, h2, h3, h4⟩, e⟩
    · rw [e]
      refine ⟨fun h' => absurd h'.symm hne, ?_⟩
      rcases h with rfl | rfl <;> rintro (h' | h') <;> exact absurd h' (by decide)
    · rw [e]; exact ⟨fun _ => h, fun _ => rfl⟩
    · rw [e]
      exact ⟨fun h' => absurd h'.symm (append_singleton_ne_self _ _),
        fun h' => h'.elim (fun h' => absurd h' h3) (fun h' => absurd h' h4)⟩
  · rw [hk]
    rintro (rfl | rfl | rfl | rfl) <;> rfl
  · intro h1 h2 h3 h4
    rw [hk]
    rcases handleModalKey_cases c key with ⟨h, _⟩ | ⟨h, _⟩ | ⟨_, e⟩
    · exact h.elim (fun h => absurd h h1) (fun h => absurd h h2)
    · exact h.elim (fun h => absurd h h3) (fun h => absurd h h4)
    · exact e
  · intro kind
    rw [hk, hk2 kind]
    unfold handleModalKey
    split <;> exact ⟨rfl, rfl⟩

/-- C6 at a concrete input: the `complete_session` modal, keys `n`, `y` and
`q`; the `help` modal gives the same for `n`. -/
theorem modal_mode_table_witness :
    (handleKey (sampleClient { sampleSnapshot with
        input_mode := some "modal", modal := some "complete_session" }) "n").1.sent
      = [⟨"dismiss_modal", none⟩] ∧
    (handleKey (sampleClient { sampleSnapshot with
        input_mode := some "modal", modal := some "complete_session" }) "y").1.sent
      = [⟨"confirm_modal", none⟩] ∧
    (handleKey (sampleClient { sampleSnapshot with
        input_mode := some "modal", modal := some "complete_session" }) "q").2 = false ∧
    (handleKey (sampleClient { sampleSnapshot with
        input_mode := some "modal", modal := some "help" }) "n").1.sent
      = [⟨"dismiss_modal", none⟩] :=
  ⟨(modal_mode_table
      (sampleClient { sampleSnapshot with
        input_mode := some "modal", modal := some "complete_session" })
      { sampleSnapshot with input_mode := some "modal", modal := some "complete_session" }
      "n" rfl rfl rfl).2.1.mpr (Or.inl rfl),
   (modal_mode_table
      (sampleClient { sampleSnapshot with
        input_mode := some "modal", modal := some "complete_session" })
      { sampleSnapshot with input_mode := some "modal", modal := some "complete_session" }
      "y" rfl rfl rfl).1.mpr (Or.inl rfl),
   by
    rw [(modal_mode_table
      (sampleClient { sampleSnapshot with
        input_mode := some "modal", modal := some "complete_session" })
      { sampleSnapshot with input_mode := some "modal", modal := some "complete_session" }
      "q" rfl rfl rfl).2.2.2.1 (by decide) (by decide) (by decide) (by decide)],
   ((modal_mode_table
      (sampleClient { sampleSnapshot with
        input_mode := some "modal", modal := some "complete_session" })
      { sampleSnapshot with input_mode := some "modal", modal := some "complete_session" }
      "n" rfl rfl rfl).2.2.2.2 (some "help")).1.trans
    ((modal_mode_table
      (sampleClient { sampleSnapshot with
        input_mode := some "modal", modal := some "complete_session" })
      { sampleSnapshot with input_mode := some "modal", modal := some "complete_session" }
      "n" rfl rfl rfl).2.1.mpr (Or.inl rfl))⟩

/-! ## C7: cycling through the presets -/

theorem THEMES_length : THEMES.length = 4 := rfl

theorem handleThemeKey_next (c : Client) (key : String) (hkey : key = "j" ∨ key = "ArrowDown") :
    (handleThemeKey c key).1.themeSelectedIndex =
      (c.themeSelectedIndex + 1).tmod THEMES.length ∧
    (handleThemeKey c key).1.themeModalOpen = c.themeModalOpen := by
  rcases hkey with rfl | rfl <;> exact ⟨rfl, rfl⟩

theorem handleThemeKey_prev (c : Client) (key : String) (hkey : key = "k" ∨ key = "ArrowUp") :
    (handleThemeKey c key).1.themeSelectedIndex =
      (c.themeSelectedIndex - 1 + THEMES.length).tmod THEMES.length ∧
    (handleThemeKey c key).1.themeModalOpen = c.themeModalOpen := by
  rcases hkey with rfl | rfl <;> exact ⟨rfl, rfl⟩

/-- Pressing a next key in the open overlay, for an index in range. -/
theorem press_next (c : Client) (key : String) (hkey : key = "j" ∨ key = "ArrowDown")
    (hopen : c.themeModalOpen = true) (hlo : 0 ≤ c.themeSelectedIndex) :
    (handleKey c key).1.themeSelectedIndex = (c.themeSelectedIndex + 1) % 4 ∧
    (handleKey c key).1.themeModalOpen = true := by
  rw [handleKey_open c key hopen]
  obtain ⟨h1, h2⟩ := handleThemeKey_next c key hkey
  rw [h1, h2, THEMES_length]
  exact ⟨Int.tmod_eq_emod (by omega) (by omega), hopen⟩

/-- Pressing a prev key in the open overlay, for an index in range. -/
theorem press_prev (c : Client) (key : String) (hkey : key = "k" ∨ key = "ArrowUp")
    (hopen : c.themeModalOpen = true) (hlo : 0 ≤ c.themeSelectedIndex) :
    (handleKey c key).1.themeSelectedIndex = (c.themeSelectedIndex - 1) % 4 ∧
    (handleKey c key).1.themeModalOpen = true := by
  rw [handleKey_open c key hopen]
  obtain ⟨h1, h2⟩ := handleThemeKey_prev c key hkey
  rw [h1, h2, THEMES_length]
  refine ⟨?_, hopen⟩
  have : (c.themeSelectedIndex - 1 + ((4 : Nat) : Int)).tmod ((4 : Nat) : Int) =
      (c.themeSelectedIndex - 1 + ((4 : Nat) : Int)) % ((4 : Nat) : Int) :=
    Int.tmod_eq_emod (by omega) (by omega)
  rw [this]
  omega

/-- C7. Theme cycling: in the open overlay with the highlighted index `i` in
`[0, len(THEMES))`, `j` and `ArrowDown` set it to `(i + 1) mod len`, `k` and
`ArrowUp` to `(i - 1) mod len`, the overlay stays open and the index stays in
`[0, len(THEMES))`; pressing the next key `len(THEMES)` times, or the prev key
`len(THEMES)` times, brings the index back to `i`. -/
theorem theme_cycle (c : Client) (hopen : c.themeModalOpen = true)
    (hlo : 0 ≤ c.themeSelectedIndex) (hhi : c.themeSelectedIndex < THEMES.length) :
    (∀ key, key = "j" ∨ key = "ArrowDown" →
      (handleKey c key).1.themeSelectedIndex = (c.themeSelectedIndex + 1) % THEMES.length ∧
      0 ≤ (handleKey c key).1.themeSelectedIndex ∧
      (handleKey c key).1.themeSelectedIndex < THEMES.length ∧
      (handleKey c key).1.themeModalOpen = true) ∧
    (∀ key, key = "k" ∨ key = "ArrowUp" →
      (handleKey c key).1.themeSelectedIndex = (c.themeSelectedIndex - 1) % THEMES.length ∧
      0 ≤ (handleKey c key).1.themeSelectedIndex ∧
      (handleKey c key).1.themeSelectedIndex < THEMES.length ∧
      (handleKey c key).1.themeModalOpen = true) ∧
    (∀ key, key = "j" ∨ key = "ArrowDown" →
      ((fun c => (handleKey c key).1)^[THEMES.length] c).themeSelectedIndex =
        c.themeSelectedIndex) ∧
    (∀ key, key = "k" ∨ key = "ArrowUp" →
      ((fun c => (handleKey c key).1)^[THEMES.length] c).themeSelectedIndex =
        c.themeSelectedIndex) := by
  rw [THEMES_length] at hhi ⊢
  refine ⟨?_, ?_, ?_, ?_⟩
  · intro key hkey
    obtain ⟨h1, h2⟩ := press_next c key hkey hopen hlo
    rw [h1]
    exact ⟨rfl, by omega, by omega, h2⟩
  · intro key hkey
    obtain ⟨h1, h2⟩ := press_prev c key hkey hopen hlo
    rw [h1]
    exact ⟨rfl, by omega, by omega, h2⟩
  · intro key hkey
    simp only [Function.iterate_succ, Function.iterate_zero, Function.comp_apply, id_eq]
    obtain ⟨a1, a2⟩ := press_next c key hkey hopen hlo
    obtain ⟨b1, b2⟩ := press_next _ key hkey a2 (by omega)
    obtain ⟨c1, c2⟩ := press_next _ key hkey b2 (by omega)
    obtain ⟨d1, -⟩ := press_next _ key hkey c2 (by omega)
    omega
  · intro key hkey
    simp only [Function.iterate_succ, Function.iterate_zero, Function.comp_apply, id_eq]
    obtain ⟨a1, a2⟩ := press_prev c key hkey hopen hlo
    obtain ⟨b1, b2⟩ := press_prev _ key hkey a2 (by omega)
    obtain ⟨c1, c2⟩ := press_prev _ key hkey b2 (by omega)
    obtain ⟨d1, -⟩ := press_prev _ key hkey c2 (by omega)
    omega

/-- C7 at the concrete input of the specification: overlay over four presets
with the highlighted index at 2; `j` three times gives 2, 3, 0, 1. -/
theorem theme_cycle_witness :
    overlayAtSolarized.themeSelectedIndex = 2 ∧
    (handleKey overlayAtSolarized "j").1.themeSelectedIndex = 3 ∧
    (handleKey (handleKey overlayAtSolarized "j").1 "j").1.themeSelectedIndex = 0 ∧
    (handleKey (handleKey (handleKey overlayAtSolarized "j").1 "j").1 "j").1.themeSelectedIndex
      = 1 ∧
    ((fun c => (handleKey c "j").1)^[THEMES.length] overlayAtSolarized).themeSelectedIndex = 2 :=
  ⟨by decide,
   ((theme_cycle overlayAtSolarized (by decide) (by decide) (by decide)).1 "j" (Or.inl rfl)).1,
   by decide, by decide,
   (theme_cycle overlayAtSolarized (by decide) (by decide) (by decide)).2.2.1 "j" (Or.inl rfl)⟩

/-! ## C8: applying the highlighted preset -/

theorem append_left_inj_string (p a b : String) (h : p ++ a = p ++ b) : a = b := by
  have h' := congrArg String.data h
  simp only [String.data_append, List.append_cancel_left_eq] at h'
  exact String.ext h'

/-- After the loop of `applyTheme` over `keys`, the variable of every role of
`keys` whose colour is truthy holds that colour. -/
theorem foldl_applyColor_lookup (theme : Theme) (role v : String)
    (hv : getProp theme.colors role = some v) (hne : v ≠ "") (keys : List String) :
    ∀ c : Client, role ∈ keys →
      getPropertyValue (keys.foldl (applyColor theme) c) ("--" ++ role) = some v := by
  induction keys using List.reverseRecOn with
  | nil => intro c h; simp at h
  | append_singleton ks k ih =>
    intro c hmem
    rw [List.foldl_append, List.foldl_cons, List.foldl_nil]
    by_cases hk : k = role
    · subst hk
      simp [applyColor, hv, hne, setProperty, getPropertyValue, List.lookup]
    · have hmem' : role ∈ ks := by
        rcases List.mem_append.mp hmem with h | h
        · exact h
        · exact absurd (List.mem_singleton.mp h).symm hk
      have ih' := ih c hmem'
      have hkey : ("--" ++ role == "--" ++ k) = false := by
        rw [beq_eq_false_iff_ne]
        intro h
        exact hk (append_left_inj_string _ _ _ h).symm
      unfold applyColor
      split
      · split
        · exact ih'
        · simpa [setProperty, getPropertyValue, List.lookup, hkey] using ih'
      · exact ih'

theorem THEMES_colors_complete :
    ∀ theme ∈ THEMES, ∀ role ∈ CSS_VARS,
      (getProp theme.colors role).isSome = true ∧ getProp theme.colors role ≠ some "" := by
  decide

theorem THEMES_find_self :
    ∀ theme ∈ THEMES, THEMES.find? (fun t => t.id == theme.id) = some theme := by
  decide

theorem applyTheme_preset (c : Client) (theme : Theme) (h : theme ∈ THEMES) :
    applyTheme c theme.id =
      CSS_VARS.foldl (applyColor theme)
        { c with currentThemeId := theme.id, storage := some theme.id } := by
  simp [applyTheme, THEMES_find_self theme h]

theorem themeAt_ofNat (i : Nat) : themeAt (i : Int) = THEMES[i]? := by
  simp [themeAt]

/-- C8. Applying: `Enter` in the open overlay with the highlighted index at a
position `i` of `THEMES` makes `THEMES[i].id` the active theme id and the
value persisted under `"1gh-theme"`, sets for each of the 13 roles of
`CSS_VARS` the variable `--role` to `THEMES[i].colors[role]` (which exists for
every role), and leaves the highlighted index and the overlay flag as they
were. -/
theorem apply_postcondition (c : Client) (i : Nat) (hopen : c.themeModalOpen = true)
    (hi : i < THEMES.length) (hidx : c.themeSelectedIndex = i) :
    ∃ theme, THEMES[i]? = some theme ∧
      (handleKey c "Enter").1 = renderThemeModal (applyTheme c theme.id) ∧
      (handleKey c "Enter").1.currentThemeId = theme.id ∧
      (handleKey c "Enter").1.storage = some theme.id ∧
      (∀ role ∈ CSS_VARS, ∃ v, getProp theme.colors role = some v ∧
        getPropertyValue (handleKey c "Enter").1 ("--" ++ role) = some v) ∧
      (handleKey c "Enter").1.themeSelectedIndex = c.themeSelectedIndex ∧
      (handleKey c "Enter").1.themeModalOpen = c.themeModalOpen := by
  have hget : THEMES[i]? = some (THEMES[i]) := List.getElem?_eq_getElem hi
  have hmem : THEMES[i] ∈ THEMES := List.getElem_mem hi
  have hat : themeAt c.themeSelectedIndex = some (THEMES[i]) := by
    rw [hidx, themeAt_ofNat, hget]
  have hk : (handleKey c "Enter").1 = renderThemeModal (applyTheme c (THEMES[i]).id) := by
    rw [handleKey_open c "Enter" hopen]
    simp [handleThemeKey, hat]
  obtain ⟨-, -, -, f4, f5, f6, f7⟩ := applyTheme_frame c (THEMES[i]).id
  refine ⟨THEMES[i], hget, hk, ?_, ?_, ?_, ?_, ?_⟩
  · rw [hk]; exact f6
  · rw [hk]; exact f7
  · intro role hrole
    obtain ⟨h1, h2⟩ := THEMES_colors_complete _ hmem role hrole
    obtain ⟨v, hv⟩ := Option.isSome_iff_exists.mp h1
    have hne : v ≠ "" := by
      rintro rfl
      exact h2 hv
    refine ⟨v, hv, ?_⟩
    rw [hk, applyTheme_preset c _ hmem]
    exact foldl_applyColor_lookup _ role v hv hne CSS_VARS _ hrole
  · rw [hk]; exact f5
  · rw [hk]; exact f4

/-- C8 at the concrete input of the specification: highlighted index 1,
`Enter` makes preset 1 (`catppuccin`) active and persisted. -/
theorem apply_postcondition_witness :
    (∃ theme, THEMES[1]? = some theme ∧
      (handleKey { overlayAtSolarized with themeSelectedIndex := 1 } "Enter").1 =
        renderThemeModal
          (applyTheme { overlayAtSolarized with themeSelectedIndex := 1 } theme.id) ∧
      (handleKey { overlayAtSolarized with themeSelectedIndex := 1 } "Enter").1.currentThemeId
        = theme.id ∧
      (handleKey { overlayAtSolarized with themeSelectedIndex := 1 } "Enter").1.storage
        = some theme.id ∧
      (∀ role ∈ CSS_VARS, ∃ v, getProp theme.colors role = some v ∧
        getPropertyValue
          (handleKey { overlayAtSolarized with themeSelectedIndex := 1 } "Enter").1
          ("--" ++ role) = some v) ∧
      (handleKey { overlayAtSolarized with themeSelectedIndex := 1 } "Enter").1.themeSelectedIndex
        = 1 ∧
      (handleKey { overlayAtSolarized with themeSelectedIndex := 1 } "Enter").1.themeModalOpen
        = true) ∧
    (handleKey { overlayAtSolarized with themeSelectedIndex := 1 } "Enter").1.currentThemeId
      = "catppuccin" ∧
    (handleKey { overlayAtSolarized with themeSelectedIndex := 1 } "Enter").1.storage
      = some "catppuccin" ∧
    getPropertyValue (handleKey { overlayAtSolarized with themeSelectedIndex := 1 } "Enter").1
      "--history-border" = some "#cba6f7" :=
  ⟨apply_postcondition { overlayAtSolarized with themeSelectedIndex := 1 } 1
      (by decide) (by decide) rfl,
   by decide, by decide, by decide⟩

/-! ## Frame lemmas of `render` -/

theorem renderTodoRow_frame (c : Client) (state : Snapshot) (i : Nat) :
    (renderTodoRow c state i).client.sent = c.sent ∧
    (renderTodoRow c state i).client.beeps = c.beeps ∧
    (renderTodoRow c state i).client.currentThemeId = c.currentThemeId := by
  unfold renderTodoRow
  dsimp only
  split <;> exact ⟨rfl, rfl, rfl⟩

theorem andThen_client_of (P : Client → Client → Prop)
    (htrans : ∀ a b d, P a b → P b d → P a d) (r : Run) (rest : Client → Run) (c : Client)
    (h1 : P c r.client) (h2 : ∀ c', P c' (rest c').client) :
    P c (r.andThen rest).client := by
  cases r with
  | done c' => exact htrans _ _ _ h1 (h2 c')
  | threw c' => exact h1

theorem SameEffects.trans (a b d : Client) (h1 : SameEffects a b) (h2 : SameEffects b d) :
    SameEffects a d :=
  ⟨h2.1.trans h1.1, h2.2.1.trans h1.2.1, h2.2.2.trans h1.2.2⟩

theorem renderTodosFrom_frame (state : Snapshot) (rows : List Nat) :
    ∀ c : Client, SameEffects c (renderTodosFrom state rows c).client := by
  induction rows with
  | nil => intro c; exact ⟨rfl, rfl, rfl⟩
  | cons i rest ih =>
    intro c
    unfold renderTodosFrom
    exact andThen_client_of SameEffects SameEffects.trans _ _ c (renderTodoRow_frame c state i) ih

theorem renderHistory_frame (c : Client) (state : Snapshot) :
    SameEffects c (renderHistory c state).client := by
  unfold renderHistory
  split
  · exact ⟨rfl, rfl, rfl⟩
  · dsimp only
    split
    · exact ⟨rfl, rfl, rfl⟩
    · split
      · exact ⟨rfl, rfl, rfl⟩
      · split <;> exact ⟨rfl, rfl, rfl⟩

theorem renderActionBar_frame (c : Client) (state : Snapshot) :
    SameEffects c (renderActionBar c state) := by
  unfold renderActionBar
  split
  · split <;> exact ⟨rfl, rfl, rfl⟩
  · exact ⟨rfl, rfl, rfl⟩

theorem renderModal_frame (c : Client) (state : Snapshot) :
    SameEffects c (renderModal c state) := by
  unfold renderModal
  split
  · exact ⟨rfl, rfl, rfl⟩
  · split
    · exact ⟨rfl, rfl, rfl⟩
    · dsimp only
      split
      · exact ⟨rfl, rfl, rfl⟩
      · split
        · exact ⟨rfl, rfl, rfl⟩
        · split
          · exact ⟨rfl, rfl, rfl⟩
          · split <;> exact ⟨rfl, rfl, rfl⟩

theorem render_currentThemeId (c : Client) (s : Option Snapshot) :
    (render c s).client.currentThemeId = c.currentThemeId := by
  unfold render
  split
  · rfl
  · rename_i state
    dsimp only
    refine andThen_client_of (fun a b => b.currentThemeId = a.currentThemeId)
      (fun _ _ _ h1 h2 => h2.trans h1) _ _ c ?_ ?_
    · exact (renderTodosFrom_frame state [0, 1, 2, 3] _).2.2
    · intro c'
      refine andThen_client_of (fun a b => b.currentThemeId = a.currentThemeId)
        (fun _ _ _ h1 h2 => h2.trans h1) _ _ c' ?_ ?_
      · exact ((renderHistory_frame _ state).2.2).trans (renderActionBar_frame c' state).2.2
      · intro c''
        split
        · exact (renderModal_frame c'' state).2.2
        · exact (renderModal_frame c'' state).2.2

/-! ## C9: the text of a todo row -/

theorem renderTodoRow_other (c : Client) (state : Snapshot) (i j : Nat) (h : j ≠ i) :
    (renderTodoRow c state j).client.todoRows i = c.todoRows i := by
  unfold renderTodoRow
  dsimp only
  split <;> simp [Run.client, Function.update, h.symm]

theorem renderTodosFrom_other (state : Snapshot) (i : Nat) (rows : List Nat) :
    ∀ c : Client, i ∉ rows → (renderTodosFrom state rows c).client.todoRows i = c.todoRows i := by
  induction rows with
  | nil => intro c _; rfl
  | cons j rest ih =>
    intro c hmem
    have hj : j ≠ i := fun e => hmem (e ▸ List.mem_cons_self _ _)
    have hrest : i ∉ rest := fun e => hmem (List.mem_cons_of_mem _ e)
    unfold renderTodosFrom
    cases hr : renderTodoRow c state j with
    | done c' =>
      have h1 := renderTodoRow_other c state i j hj
      rw [hr] at h1
      exact (ih c' hrest).trans h1
    | threw c' =>
      have h1 := renderTodoRow_other c state i j hj
      rw [hr] at h1
      exact h1

theorem renderTodoRow_returned (c : Client) (state : Snapshot) (j : Nat)
    (h : j < state.todos.length) : ∃ c', renderTodoRow c state j = .done c' := by
  unfold renderTodoRow
  dsimp only
  rw [List.getElem?_eq_getElem h]
  exact ⟨_, rfl⟩

/-- A property of row `i` established by the loop body for row `i` holds after
the whole loop, whether or not a later row makes it throw. -/
theorem renderTodosFrom_row (state : Snapshot) (i : Nat) (hi : i < state.todos.length)
    (P : TodoRowView → Prop) (hP : ∀ c, P ((renderTodoRow c state i).client.todoRows i))
    (rows : List Nat) :
    ∀ c : Client, rows.Pairwise (· < ·) → i ∈ rows →
      P ((renderTodosFrom state rows c).client.todoRows i) := by
  induction rows with
  | nil => intro c _ h; simp at h
  | cons j rest ih =>
    intro c hsorted hmem
    obtain ⟨hhead, htail⟩ := List.pairwise_cons.mp hsorted
    unfold renderTodosFrom
    by_cases hj : j = i
    · subst hj
      have hnot : j ∉ rest := fun e => absurd (hhead j e) (lt_irrefl j)
      have h1 := hP c
      cases hr : renderTodoRow c state j with
      | done c' =>
        rw [hr] at h1
        show P ((renderTodosFrom state rest c').client.todoRows j)
        rw [renderTodosFrom_other state j rest c' hnot]
        exact h1
      | threw c' =>
        rw [hr] at h1
        exact h1
    · have hrest : i ∈ rest := by
        rcases List.mem_cons.mp hmem with e | e
        · exact absurd e.symm hj
        · exact e
      have hlt : j < state.todos.length := lt_trans (hhead i hrest) hi
      obtain ⟨c', hr⟩ := renderTodoRow_returned c state j hlt
      rw [hr]
      exact ih c' htail hrest

theorem escapeHtml_empty : escapeHtml "" = "" := by decide

/-- C9, as amended. For a row index `i` in `[0,4)` whose todo has the empty
text: when the row is not the one being edited (`editing_index` differs from
`i`), `renderTodos` sets the row's text to the literal `(empty)` (class
`todo-text empty`); when it is the one being edited, the row's content is set
to the edit cursor alone (class `todo-text editing`), not to the placeholder. -/
theorem todo_row_placeholder (c : Client) (state : Snapshot) (i : Nat) (todo : Todo)
    (hi : i < 4) (ht : state.todos[i]? = some todo) (hempty : todo.text = "") :
    (state.editing_index ≠ some i →
      ((renderTodos c state).client.todoRows i).text = .textContent "(empty)" ∧
      ((renderTodos c state).client.todoRows i).textClass = "todo-text empty") ∧
    (state.editing_index = some i →
      ((renderTodos c state).client.todoRows i).text =
        .innerHTML "<span class=\"cursor-char\">▎</span>" ∧
      ((renderTodos c state).client.todoRows i).textClass = "todo-text editing") := by
  have hlen : i < state.todos.length := by
    rcases Nat.lt_or_ge i state.todos.length with h | h
    · exact h
    · rw [List.getElem?_eq_none h] at ht
      exact absurd ht (by simp)
  have hsorted : ([0, 1, 2, 3] : List Nat).Pairwise (· < ·) := by decide
  have hmem : i ∈ ([0, 1, 2, 3] : List Nat) := by
    have : i = 0 ∨ i = 1 ∨ i = 2 ∨ i = 3 := by omega
    rcases this with rfl | rfl | rfl | rfl <;> decide
  constructor
  · intro hed
    refine renderTodosFrom_row state i hlen
      (fun row => row.text = .textContent "(empty)" ∧ row.textClass = "todo-text empty")
      ?_ [0, 1, 2, 3] c hsorted hmem
    intro c'
    simp [renderTodoRow, ht, hed, hempty, Run.client]
  · intro hed
    refine renderTodosFrom_row state i hlen
      (fun row => row.text = .innerHTML "<span class=\"cursor-char\">▎</span>" ∧
        row.textClass = "todo-text editing")
      ?_ [0, 1, 2, 3] c hsorted hmem
    intro c'
    simp [renderTodoRow, ht, hed, hempty, Run.client, escapeHtml_empty]

/-- C9 at a concrete input: the fresh session, row 2 (empty, not edited). -/
theorem todo_row_placeholder_witness :
    ((renderTodos samplePage sampleSnapshot).client.todoRows 2).text = .textContent "(empty)" ∧
    ((renderTodos samplePage sampleSnapshot).client.todoRows 2).textClass = "todo-text empty" :=
  (todo_row_placeholder samplePage sampleSnapshot 2 ⟨"", false⟩ (by decide) rfl rfl).1
    (by decide)

/-- C9 as stated fails: row 0 has the empty text and is the row being edited;
`renderTodos` sets its content to the cursor markup and its class to
`todo-text editing`, not to the placeholder `(empty)`. -/
theorem editing_empty_row_has_no_placeholder :
    ({ sampleSnapshot with input_mode := some "editing:0", editing_index := some 0 }.todos[0]?.map
      fun t => t.text) = some "" ∧
    ((renderTodos samplePage
        { sampleSnapshot with input_mode := some "editing:0", editing_index := some 0 }
      ).client.todoRows 0).text ≠ .textContent "(empty)" ∧
    ((renderTodos samplePage
        { sampleSnapshot with input_mode := some "editing:0", editing_index := some 0 }
      ).client.todoRows 0).text = .innerHTML "<span class=\"cursor-char\">▎</span>" ∧
    ((renderTodos samplePage
        { sampleSnapshot with input_mode := some "editing:0", editing_index := some 0 }
      ).client.todoRows 0).textClass = "todo-text editing" := by
  decide

/-! ## C2: the notification in `render` -/

theorem renderTodosFrom_returned (state : Snapshot) (rows : List Nat)
    (h : ∀ j ∈ rows, j < state.todos.length) :
    ∀ c : Client, ∃ c', renderTodosFrom state rows c = .done c' := by
  induction rows with
  | nil => intro c; exact ⟨c, rfl⟩
  | cons j rest ih =>
    intro c
    obtain ⟨c1, h1⟩ := renderTodoRow_returned c state j (h j (List.mem_cons_self _ _))
    unfold renderTodosFrom
    rw [h1]
    exact ih (fun k hk => h k (List.mem_cons_of_mem _ hk)) c1

theorem renderTodos_returned (c : Client) (state : Snapshot) (h : 4 ≤ state.todos.length) :
    ∃ c', renderTodos c state = .done c' := by
  refine renderTodosFrom_returned state [0, 1, 2, 3] ?_ c
  intro j hj
  simp only [List.mem_cons, List.mem_singleton, List.not_mem_nil, or_false] at hj
  omega

theorem renderHistory_returned (c : Client) (state : Snapshot)
    (h : state.show_history = true → ∀ notes, state.completed_notes = some notes → notes ≠ [] →
      state.history_index < notes.length) :
    ∃ c', renderHistory c state = .done c' := by
  unfold renderHistory
  split
  · exact ⟨_, rfl⟩
  · rename_i hshow
    dsimp only
    split
    · exact ⟨_, rfl⟩
    · rename_i notes hnotes
      split
      · exact ⟨_, rfl⟩
      · rename_i hlen
        have hne : notes ≠ [] := fun e => hlen (by rw [e]; rfl)
        have hidx := h (by simpa using hshow) notes hnotes hne
        rw [List.getElem?_eq_getElem hidx]
        exact ⟨_, rfl⟩

/-- What one call of `render` does to the tone count and the requests sent:
nothing when it throws on the way or `sound_pending` is false, one tone and one
`clear_sound` otherwise. -/
theorem render_effects (c : Client) (state : Snapshot) :
    ((render c (some state)).returned = false ∧
      (render c (some state)).client.beeps = c.beeps ∧
      (render c (some state)).client.sent = c.sent) ∨
    ((render c (some state)).returned = true ∧
      (render c (some state)).client.beeps = c.beeps + (if state.sound_pending then 1 else 0) ∧
      (render c (some state)).client.sent =
        c.sent ++ (if state.sound_pending then [⟨"clear_sound", none⟩] else [])) := by
  unfold render
  dsimp only
  have f1 := renderTodosFrom_frame state [0, 1, 2, 3]
    (renderTimer { c with currentState := some state } state)
  cases h1 : renderTodos (renderTimer { c with currentState := some state } state) state with
  | threw c1 =>
    left
    have e : (renderTodosFrom state [0, 1, 2, 3]
        (renderTimer { c with currentState := some state } state)) = .threw c1 := h1
    rw [e] at f1
    exact ⟨rfl, f1.2.1, f1.1⟩
  | done c1 =>
    have e : (renderTodosFrom state [0, 1, 2, 3]
        (renderTimer { c with currentState := some state } state)) = .done c1 := h1
    rw [e] at f1
    have f2 := renderActionBar_frame c1 state
    have f3 := renderHistory_frame (renderActionBar c1 state) state
    simp only [Run.andThen]
    cases h2 : renderHistory (renderActionBar c1 state) state with
    | threw c2 =>
      left
      rw [h2] at f3
      exact ⟨rfl, (f3.2.1.trans f2.2.1).trans f1.2.1, (f3.1.trans f2.1).trans f1.1⟩
    | done c2 =>
      right
      rw [h2] at f3
      have f4 := renderModal_frame c2 state
      have hb : (renderModal c2 state).beeps = c.beeps :=
        ((f4.2.1.trans f3.2.1).trans f2.2.1).trans f1.2.1
      have hs : (renderModal c2 state).sent = c.sent :=
        ((f4.1.trans f3.1).trans f2.1).trans f1.1
      cases hp : state.sound_pending with
      | false => simpa [Run.returned, Run.client] using And.intro hb hs
      | true =>
        simpa [Run.returned, Run.client, playBeep, sendAction, orNull] using And.intro hb hs

theorem renderable_spec (state : Snapshot) (h : renderable state = true) :
    4 ≤ state.todos.length ∧
    (state.show_history = true → ∀ notes, state.completed_notes = some notes → notes ≠ [] →
      state.history_index < notes.length) := by
  unfold renderable at h
  rw [Bool.and_eq_true] at h
  obtain ⟨h1, h2⟩ := h
  refine ⟨of_decide_eq_true h1, ?_⟩
  intro hshow notes hnotes hne
  rw [hshow, hnotes] at h2
  cases notes with
  | nil => exact absurd rfl hne
  | cons n rest => simpa using h2

theorem render_returned (c : Client) (state : Snapshot) (h : renderable state = true) :
    (render c (some state)).returned = true := by
  unfold render
  dsimp only
  obtain ⟨c1, h1⟩ := renderTodos_returned
    (renderTimer { c with currentState := some state } state) state (renderable_spec state h).1
  obtain ⟨c2, h2⟩ := renderHistory_returned (renderActionBar c1 state) state
    (renderable_spec state h).2
  rw [h1]
  simp only [Run.andThen, h2]
  split <;> rfl

/-- C2, as amended. `render` keeps no memory of a tone already played: for a
snapshot with `sound_pending = false`, two calls in succession play no tone and
issue no `clear_sound`; for a snapshot with `sound_pending = true` on which
`render` runs to its end, each call plays one tone and issues one
`clear_sound`, so two calls in succession with the same snapshot play two
tones and issue two `clear_sound` requests. -/
theorem render_twice_notification (c : Client) (state : Snapshot) :
    (state.sound_pending = false →
      (render (render c (some state)).client (some state)).client.beeps = c.beeps ∧
      (render (render c (some state)).client (some state)).client.sent = c.sent) ∧
    (state.sound_pending = true → renderable state = true →
      (render c (some state)).client.beeps = c.beeps + 1 ∧
      (render c (some state)).client.sent = c.sent ++ [⟨"clear_sound", none⟩] ∧
      (render (render c (some state)).client (some state)).client.beeps = c.beeps + 2 ∧
      (render (render c (some state)).client (some state)).client.sent =
        c.sent ++ [⟨"clear_sound", none⟩, ⟨"clear_sound", none⟩]) := by
  constructor
  · intro hp
    have e1 : (render c (some state)).client.beeps = c.beeps ∧
        (render c (some state)).client.sent = c.sent := by
      rcases render_effects c state with ⟨-, hb, hs⟩ | ⟨-, hb, hs⟩
      · exact ⟨hb, hs⟩
      · simpa [hp] using And.intro hb hs
    rcases render_effects (render c (some state)).client state with ⟨-, hb, hs⟩ | ⟨-, hb, hs⟩
    · exact ⟨hb.trans e1.1, hs.trans e1.2⟩
    · rw [hp] at hb hs
      exact ⟨by simpa [e1.1] using hb, by simpa [e1.2] using hs⟩
  · intro hp hr
    have e1 : (render c (some state)).client.beeps = c.beeps + 1 ∧
        (render c (some state)).client.sent = c.sent ++ [⟨"clear_sound", none⟩] := by
      rcases render_effects c state with ⟨hret, -, -⟩ | ⟨-, hb, hs⟩
      · rw [render_returned c state hr] at hret
        exact absurd hret (by decide)
      · simpa [hp] using And.intro hb hs
    refine ⟨e1.1, e1.2, ?_⟩
    rcases render_effects (render c (some state)).client state with ⟨hret, -, -⟩ | ⟨-, hb, hs⟩
    · rw [render_returned _ state hr] at hret
      exact absurd hret (by decide)
    · rw [hp, e1.1] at hb
      rw [hp, e1.2] at hs
      exact ⟨by simpa using hb, by simpa using hs⟩

/-- C2 at a concrete input: the fresh session (`sound_pending = false`)
rendered twice plays nothing; the ringing snapshot rendered twice. -/
theorem render_twice_notification_witness :
    (render (render samplePage (some sampleSnapshot)).client (some sampleSnapshot)).client.beeps
      = 0 ∧
    (render (render samplePage (some ringingSnapshot)).client (some ringingSnapshot)).client.beeps
      = 0 + 2 :=
  ⟨((render_twice_notification samplePage sampleSnapshot).1 rfl).1,
   ((render_twice_notification samplePage ringingSnapshot).2 rfl (by decide)).2.2.1⟩

/-- C2 as stated fails: `render` called twice in succession with the same
snapshot whose `sound_pending` is true calls `playBeep` twice and issues
`clear_sound` twice. -/
theorem render_twice_beeps_twice :
    ringingSnapshot.sound_pending = true ∧
    samplePage.beeps = 0 ∧
    (render (render samplePage (some ringingSnapshot)).client (some ringingSnapshot)).client.beeps
      = 2 ∧
    ¬ (render (render samplePage (some ringingSnapshot)).client
        (some ringingSnapshot)).client.beeps ≤ samplePage.beeps + 1 ∧
    (render (render samplePage (some ringingSnapshot)).client (some ringingSnapshot)).client.sent
      = [⟨"clear_sound", none⟩, ⟨"clear_sound", none⟩] := by
  decide

/-! ## C10: the active theme -/

theorem themeAt_mem (i : Int) (theme : Theme) (h : themeAt i = some theme) : theme ∈ THEMES := by
  unfold themeAt at h
  split at h
  · exact List.getElem?_mem h
  · exact absurd h (by simp)

theorem handleThemeKey_currentThemeId (c : Client) (key : String) :
    (handleThemeKey c key).1.currentThemeId = c.currentThemeId ∨
    ∃ theme ∈ THEMES, (handleThemeKey c key).1.currentThemeId = theme.id := by
  unfold handleThemeKey
  split
  · exact Or.inl rfl
  · exact Or.inl rfl
  · exact Or.inl rfl
  · exact Or.inl rfl
  · split
    · rename_i theme h
      exact Or.inr ⟨theme, themeAt_mem _ _ h, (applyTheme_frame c theme.id).2.2.2.2.2.1⟩
    · exact Or.inl rfl
  · exact Or.inl rfl
  · exact Or.inl rfl
  · exact Or.inl rfl

theorem openThemeModal_currentThemeId (c : Client) :
    (openThemeModal c).currentThemeId = c.currentThemeId := by
  unfold openThemeModal
  simp only [renderThemeModal]
  split <;> rfl

theorem handleNormalKey_currentThemeId (c : Client) (key : String) :
    (handleNormalKey c key).1.currentThemeId = c.currentThemeId := by
  unfold handleNormalKey
  split
  all_goals first
    | rfl
    | exact openThemeModal_currentThemeId c

theorem handleEditingKey_currentThemeId (c : Client) (key : String) :
    (handleEditingKey c key).1.currentThemeId = c.currentThemeId := by
  unfold handleEditingKey
  split
  · rfl
  · rfl
  · rfl
  · split <;> rfl

theorem handleModalKey_currentThemeId (c : Client) (key : String) :
    (handleModalKey c key).1.currentThemeId = c.currentThemeId := by
  unfold handleModalKey
  split <;> rfl

theorem handleKey_currentThemeId (c : Client) (key : String) :
    (handleKey c key).1.currentThemeId = c.currentThemeId ∨
    ∃ theme ∈ THEMES, (handleKey c key).1.currentThemeId = theme.id := by
  unfold handleKey
  split
  · exact handleThemeKey_currentThemeId c key
  · split
    · exact Or.inl rfl
    · dsimp only
      split
      · exact Or.inl (handleNormalKey_currentThemeId c key)
      · split
        · exact Or.inl (handleEditingKey_currentThemeId c key)
        · split
          · exact Or.inl (handleModalKey_currentThemeId c key)
          · exact Or.inl rfl

/-- The active theme id is the id of a preset. -/
theorem step_preset (c : Client) (e : Event) (h : ∃ theme ∈ THEMES, c.currentThemeId = theme.id) :
    ∃ theme ∈ THEMES, (step c e).currentThemeId = theme.id := by
  cases e with
  | key k =>
    rcases handleKey_currentThemeId c k with h' | h'
    · obtain ⟨t, ht, e⟩ := h
      exact ⟨t, ht, h'.trans e⟩
    · exact h'
  | response s =>
    obtain ⟨t, ht, e⟩ := h
    exact ⟨t, ht, (render_currentThemeId c s).trans e⟩

theorem run_preset (events : List Event) :
    ∀ c : Client, (∃ theme ∈ THEMES, c.currentThemeId = theme.id) →
      ∃ theme ∈ THEMES, (run c events).currentThemeId = theme.id := by
  induction events with
  | nil => intro c h; exact h
  | cons e rest ih =>
    intro c h
    exact ih (step c e) (step_preset c e h)

theorem startup_currentThemeId (page : Client) (persisted : Option String) :
    (startup page persisted).currentThemeId = (load page persisted).currentThemeId :=
  (applyTheme_frame _ _).2.2.2.2.2.1

theorem THEMES_ids_distinct :
    ∀ theme ∈ THEMES, (THEMES.filter fun t => decide (t.id = theme.id)).length = 1 := by
  decide

theorem enumFrom_active_count (c : Client) (themes : List Theme) :
    ∀ n : Nat,
      (((themes.enumFrom n).map fun p => themeOptionView c p.1 p.2).filter
        fun o => o.active).length =
      (themes.filter fun t => decide (t.id = c.currentThemeId)).length := by
  induction themes with
  | nil => intro n; rfl
  | cons t rest ih =>
    intro n
    simp only [List.enumFrom_cons, List.map_cons, List.filter_cons]
    have ha : (themeOptionView c n t).active = decide (t.id = c.currentThemeId) := rfl
    rw [ha]
    split
    · simp only [List.length_cons, ih (n + 1)]
    · exact ih (n + 1)

theorem themeListView_active_count (c : Client) :
    ((themeListView c).filter fun o => o.active).length =
      (THEMES.filter fun t => decide (t.id = c.currentThemeId)).length :=
  enumFrom_active_count c THEMES 0

/-- C10, as amended. When the value persisted under `"1gh-theme"` is absent,
empty, or the id of a preset, then after startup and any sequence of key events
and backend responses exactly one preset of `THEMES` has the active theme id,
and exactly one entry of the theme list is marked active. -/
theorem exactly_one_active_theme (page : Client) (persisted : Option String)
    (events : List Event)
    (hp : persisted = none ∨ persisted = some "" ∨ ∃ theme ∈ THEMES, persisted = some theme.id) :
    (THEMES.filter fun t =>
      decide (t.id = (run (startup page persisted) events).currentThemeId)).length = 1 ∧
    ((themeListView (run (startup page persisted) events)).filter fun o => o.active).length
      = 1 := by
  have h0 : ∃ theme ∈ THEMES, (startup page persisted).currentThemeId = theme.id := by
    rw [startup_currentThemeId]
    rcases hp with rfl | rfl | ⟨t, ht, rfl⟩
    · exact ⟨_, List.mem_cons_self _ _, rfl⟩
    · exact ⟨_, List.mem_cons_self _ _, rfl⟩
    · refine ⟨t, ht, ?_⟩
      have hne : t.id ≠ "" := by
        revert t
        decide
      simp [load, hne]
  obtain ⟨t, ht, e⟩ := run_preset events _ h0
  have h1 := THEMES_ids_distinct t ht
  rw [themeListView_active_count, e]
  exact ⟨h1, h1⟩

/-- C10 at a concrete input: nothing persisted, then a snapshot arrives, the
overlay is opened, `k` is pressed and `Enter` applies the last preset. -/
theorem exactly_one_active_theme_witness :
    (THEMES.filter fun t =>
      decide (t.id = (run (startup samplePage none)
        [.response (some sampleSnapshot), .key "t", .key "k", .key "Enter"]).currentThemeId)).length
      = 1 ∧
    ((themeListView (run (startup samplePage none)
        [.response (some sampleSnapshot), .key "t", .key "k", .key "Enter"])).filter
      fun o => o.active).length = 1 :=
  exactly_one_active_theme samplePage none
    [.response (some sampleSnapshot), .key "t", .key "k", .key "Enter"] (Or.inl rfl)

/-- C10 as stated fails: with the value `"nord"` persisted (not the id of a
preset) the active theme id after startup is `"nord"`, no preset has it, and
the theme list rendered when the overlay is opened marks no entry active. -/
theorem unknown_persisted_theme_none_active :
    (startup samplePage (some "nord")).currentThemeId = "nord" ∧
    (THEMES.filter fun t =>
      decide (t.id = (startup samplePage (some "nord")).currentThemeId)).length = 0 ∧
    ¬ (THEMES.filter fun t =>
      decide (t.id = (run (startup samplePage (some "nord"))
        [.response (some sampleSnapshot), .key "t"]).currentThemeId)).length = 1 ∧
    ((run (startup samplePage (some "nord"))
        [.response (some sampleSnapshot), .key "t"]).themeList.filter fun o => o.active).length
      = 0 := by
  decide

end OneGH
